import Mathlib

/-!
Shallow embedding of the meeting lifecycle core of the SIT-SBC backend
(Mongoose models `Meeting`, `Archive`, `User`, the meeting controller and
the meetings router), together with theorems settling the frozen claims
about it.

Object ids (Mongo `_id` values) are modelled as `Nat`; instants as `Nat`
timestamps; calendar days as explicit `{year, month, day}` triples (the
granularity at which the pre-save hook counts same-day documents); JS
numbers that carry fractional values as `ℚ`.
-/

/-- Calendar day, the granularity used by the same-day document count in
the meeting pre-save hook. -/
structure Date3 where
  year : Nat
  month : Nat
  day : Nat
deriving DecidableEq, Repr

/-- `String(n).padStart(w, "0")` on a decimal rendering of `n`. -/
def padZero (w : Nat) (n : Nat) : String :=
  let s := toString n
  if w ≤ s.length then s
  else String.mk (List.replicate (w - s.length) '0') ++ s

/-- JS `a || b` for two possibly-undefined string values: the empty string
is falsy, so it falls through to `b`. -/
def jsOrStr (a b : Option String) : Option String :=
  match a with
  | some s => if s = "" then b else some s
  | none => b

/-- `arr.slice(-n)`: the last `n` elements of a list. -/
def takeLast (n : Nat) (l : List α) : List α :=
  l.drop (l.length - n)

/-- Meeting `status` enum of the Mongoose schema. -/
inductive MStatus where
  | draft | scheduled | inProgress | completed | cancelled | postponed
deriving DecidableEq, Repr

/-- Attendee `status` enum. -/
inductive AttStatus where
  | present | absent | late | excused
deriving DecidableEq, Repr

/-- Meeting `type` enum. -/
inductive MType where
  | regular | random | special | committee
deriving DecidableEq, Repr

/-- Action item `status` enum. -/
inductive AIStatus where
  | pending | inProgress | completed | cancelled
deriving DecidableEq, Repr

/-- Action item `priority` enum. -/
inductive AIPriority where
  | low | medium | high | critical
deriving DecidableEq, Repr

/-- One entry of the meeting `attendees` array. `aid` is the subdocument
`_id` that Mongoose generates for each array entry; `user` is the `User`
reference. `attendees.id(x)` looks entries up by `aid`, not by `user`. -/
structure Attendee where
  aid : Nat
  user : Nat
  name : Option String := none
  role : Option String := none
  status : AttStatus := .absent
  time : Option String := none
  notes : Option String := none
deriving DecidableEq, Repr

/-- One entry of the meeting `agenda` array. -/
structure AgendaItem where
  itemNumber : Option Nat := none
  title : String
  presenter : Option String := none
  duration : Option Nat := none
  description : Option String := none
  status : String := "pending"
deriving DecidableEq, Repr

/-- One entry of `minutes.decisions`. -/
structure DecisionRec where
  decision : String
  inFavor : Option Nat := none
  against : Option Nat := none
  abstained : Option Nat := none
  implementBy : Option Nat := none
deriving DecidableEq, Repr

/-- One entry of `minutes.actionItems`. -/
structure ActionItem where
  task : String
  assignee : Option Nat := none
  deadline : Option Nat := none
  status : AIStatus := .pending
  priority : AIPriority := .medium
  notes : Option String := none
  completionDate : Option Nat := none
deriving DecidableEq, Repr

/-- One entry of `minutes.attachments`. -/
structure Attachment where
  name : Option String := none
  url : Option String := none
  kind : Option String := none
deriving DecidableEq, Repr

/-- The `minutes.nextMeeting` substructure. -/
structure NextMeeting where
  date : Option Nat := none
  time : Option String := none
  venue : Option String := none
  agendaText : Option String := none
deriving DecidableEq, Repr

/-- The `minutes` substructure of a meeting. -/
structure Minutes where
  summary : Option String := none
  keyPoints : List String := []
  decisions : List DecisionRec := []
  actionItems : List ActionItem := []
  attachments : List Attachment := []
  nextMeeting : Option NextMeeting := none
deriving DecidableEq, Repr

/-- All fields of a meeting document except `previousVersions`.
`mid` is the store-generated `_id`; `createdAt` is the store-managed
creation timestamp, kept at calendar-day granularity because the only
query on it is the same-day range of the pre-save hook. `meetingId` and
`createdBy` are required schema paths that a caller can nevertheless fail
to supply on a freshly built document, so they are modelled as optional
values and their presence is what `validateMeeting` below checks; every
other required path is total by construction here. -/
structure MeetingCore where
  mid : Nat
  meetingId : Option String := none
  title : String
  mtype : MType := .regular
  date : String
  startTime : String
  endTime : String
  venue : String
  chairperson : Nat
  minutesTaker : Nat
  objective : Option String := none
  attendees : List Attendee := []
  agenda : List AgendaItem := []
  minutes : Option Minutes := none
  status : MStatus := .draft
  archived : Bool := false
  published : Bool := false
  publishedAt : Option Nat := none
  publishedBy : Option Nat := none
  createdBy : Option Nat := none
  updatedBy : Option Nat := none
  version : Nat := 1
  createdAt : Date3
deriving DecidableEq, Repr

/-- One entry of `previousVersions`: a stored document snapshot plus
metadata. `α` is instantiated with the meeting document type. -/
structure PrevEntry (α : Type) where
  data : α
  version : Nat
  updatedAt : Nat
  updatedBy : Option Nat

/-- A full meeting document: core fields plus the `previousVersions`
array, whose entries hold `this.toObject()` snapshots, that is, full
documents again (hence the nested recursion). -/
inductive Meeting : Type where
  | mk (core : MeetingCore) (previousVersions : List (PrevEntry Meeting)) : Meeting

/-- Core-field projection of a meeting document. -/
def Meeting.core : Meeting → MeetingCore
  | .mk c _ => c

/-- The `previousVersions` array of a meeting document. -/
def Meeting.prevVersions : Meeting → List (PrevEntry Meeting)
  | .mk _ p => p

/-- Rebuild a meeting document with its core fields transformed. -/
def Meeting.mapCore (m : Meeting) (f : MeetingCore → MeetingCore) : Meeting :=
  .mk (f m.core) m.prevVersions

@[simp] theorem Meeting.core_mk (c : MeetingCore) (p : List (PrevEntry Meeting)) :
    (Meeting.mk c p).core = c := rfl

@[simp] theorem Meeting.prevVersions_mk (c : MeetingCore) (p : List (PrevEntry Meeting)) :
    (Meeting.mk c p).prevVersions = p := rfl

@[simp] theorem Meeting.core_mapCore (m : Meeting) (f : MeetingCore → MeetingCore) :
    (m.mapCore f).core = f m.core := rfl

@[simp] theorem Meeting.prevVersions_mapCore (m : Meeting) (f : MeetingCore → MeetingCore) :
    (m.mapCore f).prevVersions = m.prevVersions := rfl

/-- `countDocuments({ createdAt: today })` over the meeting collection:
the number of stored meetings created on the given calendar day. -/
def sameDayCount (store : List Meeting) (today : Date3) : Nat :=
  (store.filter (fun m => m.core.createdAt == today)).length

/-- The meeting id the pre-save hook builds from the current date and the
count of meetings already created the same day. -/
def hookMeetingId (today : Date3) (count : Nat) : String :=
  "SC-" ++ toString today.year ++ "-" ++ padZero 2 today.month ++ "-"
    ++ padZero 2 today.day ++ "-" ++ padZero 3 (count + 1)

/-- `generateMeetingId` from `utils/helpers.js`: same date prefix, but the
three-digit suffix is `Math.floor(Math.random() * 1000)`, supplied here as
the draw `r` of the random number generator. -/
def generateMeetingId (today : Date3) (r : Nat) : String :=
  "SC-" ++ toString today.year ++ "-" ++ padZero 2 today.month ++ "-"
    ++ padZero 2 today.day ++ "-" ++ padZero 3 r

/-- The `meetingSchema.pre("save")` middleware. If the document has no
`meetingId` yet it assigns one from the date and the same-day document
count of the collection (the document being saved is not part of `store`
yet on a create). In the real pipeline this assignment branch is dead
code: `meetingId` is a required path and Mongoose validates the document
before any user pre-save hook runs, so an id-less document is rejected
before this hook could assign the id (the hook is embedded as written
nonetheless). Then, if the document is modified and not new, it
increments `version` and pushes `this.toObject()` — the document in its
current, already-patched state, with the already-incremented version but
the old history list — onto `previousVersions`, truncated to the last 5
entries. `isNew` and `isModif` are the Mongoose document flags. -/
def preSave (store : List Meeting) (today : Date3) (now : Nat)
    (isNew isModif : Bool) (m : Meeting) : Meeting :=
  let c0 := m.core
  let c1 :=
    if c0.meetingId.isNone then
      { c0 with meetingId := some (hookMeetingId today (sameDayCount store today)) }
    else c0
  if isModif && !isNew then
    let c2 := { c1 with version := c1.version + 1 }
    let snapshot : Meeting := .mk c2 m.prevVersions
    let entry : PrevEntry Meeting :=
      { data := snapshot, version := c2.version - 1, updatedAt := now, updatedBy := c2.updatedBy }
    .mk c2 (takeLast 5 (m.prevVersions ++ [entry]))
  else
    .mk c1 m.prevVersions

/-- `findById` on the meeting collection. -/
def findById (store : List Meeting) (id : Nat) : Option Meeting :=
  store.find? (fun m => m.core.mid == id)

/-- Persist a document: replace the stored document with the same `_id`,
or append the document if none is stored yet. -/
def storePut (store : List Meeting) (m : Meeting) : List Meeting :=
  if store.any (fun x => x.core.mid == m.core.mid) then
    store.map (fun x => if x.core.mid == m.core.mid then m else x)
  else
    store ++ [m]

/-- `document.save()`: run the pre-save middleware against the current
store, then persist the resulting document. Returns the new store and the
saved document. Mongoose also validates the document before any user
pre-save hook runs; that validation is made explicit (`validateMeeting`)
only on the create paths, where a freshly built document can actually be
missing a required path — the update operations in scope save documents
read back from the store, which carry `meetingId` and `createdBy`. -/
def saveDoc (store : List Meeting) (today : Date3) (now : Nat)
    (isNew isModif : Bool) (m : Meeting) : List Meeting × Meeting :=
  let m1 := preSave store today now isNew isModif m
  (storePut store m1, m1)

/-- Required-path validation of the meeting schema. Mongoose registers
validation as the first pre-save hook, so every validate hook completes
before any user `pre("save")` hook runs, and a failing document aborts
the save with a ValidationError. In this embedding all required paths
except `meetingId` and `createdBy` are present by construction (their
fields have total types), so validation reduces to the presence of those
two; the `match` format validator on `meetingId` is not represented
because no operation in scope is decided by it. -/
def validateMeeting (m : Meeting) : Bool :=
  m.core.meetingId.isSome && m.core.createdBy.isSome

/-- The performance counters of a user (`userSchema.performance`). JS
numbers are modelled as `ℚ` since the tasks and streak scores use the
factors 1.5 and 0.5; `rating` is an integer because it is produced by
`Math.round`. -/
structure Perf where
  meetingsAttended : ℚ := 0
  tasksCompleted : ℚ := 0
  rating : ℤ := 0
  streak : ℚ := 0
  points : ℚ := 0
deriving DecidableEq, Repr

/-- `Math.round(x)` on a real JS number: the floor of `x + 1/2`. -/
def jsRound (x : ℚ) : ℤ := ⌊x + 1 / 2⌋

/-- `userSchema.methods.updatePerformance(meetings, tasks)`: adds the
increments to the two counters, recomputes `rating` as the rounded sum of
the capped scores (the streak score uses the streak value from before the
streak bump below), bumps `streak` when a meeting was attended, and adds
points. -/
def updatePerformance (p : Perf) (meetings tasks : ℚ) : Perf :=
  let ma := p.meetingsAttended + meetings
  let tc := p.tasksCompleted + tasks
  let meetingsScore := min (ma * 2) 40
  let tasksScore := min (tc * (3 / 2)) 40
  let streakScore := min (p.streak * (1 / 2)) 20
  { meetingsAttended := ma
    tasksCompleted := tc
    rating := jsRound (meetingsScore + tasksScore + streakScore)
    streak := if 0 < meetings then p.streak + 1 else p.streak
    points := p.points + meetings * 10 + tasks * 5 }

/-- A user record, with the fields the meeting operations read: identity,
the controller flag checked by the privileged endpoints, the email
notification preference, and the performance counters. -/
structure UserRec where
  uid : Nat
  isController : Bool := false
  emailPref : Bool := true
  perf : Perf := {}
deriving DecidableEq, Repr

/-- A record of the Archival Store (`Archive` model) as written by the
meeting delete endpoint: the full snapshot of the removed document plus
metadata. -/
structure ArchiveRec where
  itemId : Nat
  itemType : String
  originalData : Meeting
  archivedBy : Nat
  reason : String
  metaVersion : Nat
  metaCollection : String

/-- The persistent state the meeting endpoints touch: the meeting and
archive collections, the user collection, and the log of email
notifications sent (as the list of recipient user ids). -/
structure DbState where
  meetings : List Meeting := []
  archives : List ArchiveRec := []
  users : List UserRec := []
  emails : List Nat := []

/-- Outcome of an endpoint call. -/
inductive OpResult where
  | ok | notFound | forbidden | errored
deriving DecidableEq, Repr

/-- Result of an endpoint call: the new state, the meeting document the
handler responds with (when any), and the outcome. -/
structure CtrlOut where
  st : DbState
  meeting : Option Meeting := none
  res : OpResult

/-- The archive record `deleteMeeting` writes for a meeting: a full
snapshot plus who deleted it, the fixed reason string, and metadata. -/
def mkDelArchive (m : Meeting) (actorUid : Nat) : ArchiveRec :=
  { itemId := m.core.mid
    itemType := "meeting"
    originalData := m
    archivedBy := actorUid
    reason := "Manual deletion by controller"
    metaVersion := m.core.version
    metaCollection := "meetings" }

/-- `deleteMeeting` from the meeting controller: look the meeting up,
reject non-controller actors, write one archive record holding the full
snapshot, then remove the meeting. `Archive.create` is fallible; when the
archival write fails (`archiveWriteOk = false`) the thrown error reaches
the catch block before `meeting.deleteOne()` runs, so the state is left
untouched. -/
def deleteMeetingCtrl (st : DbState) (actor : UserRec) (id : Nat)
    (archiveWriteOk : Bool) : CtrlOut :=
  match findById st.meetings id with
  | none => ⟨st, none, .notFound⟩
  | some m =>
    if !actor.isController then ⟨st, none, .forbidden⟩
    else if archiveWriteOk then
      ⟨{ st with
          archives := st.archives ++ [mkDelArchive m actor.uid]
          meetings := st.meetings.filter (fun x => !(x.core.mid == id)) },
        some m, .ok⟩
    else ⟨st, none, .errored⟩

/-- `router.delete("/:id")` from the meetings router: behind the
controller-only middleware, a bare `findByIdAndDelete` — no archive record
is written. -/
def routerDeleteMeeting (st : DbState) (actor : UserRec) (id : Nat) : CtrlOut :=
  if !actor.isController then ⟨st, none, .forbidden⟩
  else
    match findById st.meetings id with
    | none => ⟨st, none, .notFound⟩
    | some m =>
      ⟨{ st with meetings := st.meetings.filter (fun x => !(x.core.mid == id)) },
        some m, .ok⟩

/-- The update body of `PUT /api/meetings/:id` (a representative set of
patchable fields of `req.body`). -/
structure UpdateBody where
  title : Option String := none
  venue : Option String := none
  objective : Option String := none
  status : Option MStatus := none
deriving DecidableEq, Repr

/-- Apply an update body plus the `updatedBy` stamp to the core fields,
the way the controller spreads `{...req.body, updatedBy: req.user.id}`
into the update. -/
def applyUpdateBody (b : UpdateBody) (updUid : Nat) (c : MeetingCore) : MeetingCore :=
  { c with
    title := b.title.getD c.title
    venue := b.venue.getD c.venue
    objective := match b.objective with | some s => some s | none => c.objective
    status := b.status.getD c.status
    updatedBy := some updUid }

/-- `Meeting.findByIdAndUpdate(id, update)`: apply the update atomically
to the stored document. Mongoose `findOneAndUpdate` family operations do
not run the `save` middleware, so `preSave` — and with it the version
bump and history snapshot — is not involved on this path. -/
def findByIdAndUpdateMeeting (store : List Meeting) (id : Nat)
    (f : MeetingCore → MeetingCore) : List Meeting × Option Meeting :=
  match store.find? (fun m => m.core.mid == id) with
  | none => (store, none)
  | some m =>
    let m1 := m.mapCore f
    (storePut store m1, some m1)

/-- `updateMeeting` from the meeting controller: look up, check that the
actor is a controller or the creator or the chairperson, then patch via
`findByIdAndUpdate`. -/
def updateMeetingCtrl (st : DbState) (actor : UserRec) (id : Nat)
    (b : UpdateBody) : CtrlOut :=
  match findById st.meetings id with
  | none => ⟨st, none, .notFound⟩
  | some m =>
    if !(actor.isController || m.core.createdBy == some actor.uid
        || m.core.chairperson == actor.uid) then
      ⟨st, none, .forbidden⟩
    else
      let r := findByIdAndUpdateMeeting st.meetings id (applyUpdateBody b actor.uid)
      ⟨{ st with meetings := r.1 }, r.2, .ok⟩

/-- `meetingSchema.methods.publish(userId)` before its `save()` call:
sets the published flag, stamp and actor, and forces `status` to
`completed`. -/
def meetingPublishDoc (m : Meeting) (userId : Nat) (now : Nat) : Meeting :=
  m.mapCore fun c =>
    { c with published := true, publishedAt := some now,
             publishedBy := some userId, status := .completed }

/-- `publishMeeting` from the meeting controller: look up, authorize
(controller, creator or chairperson), run the document publish method and
save it, then email every stored user who appears in the attendee list
and has the email notification preference enabled. There is no check on
`minutes.summary`. -/
def publishMeetingCtrl (st : DbState) (actor : UserRec) (id : Nat)
    (today : Date3) (now : Nat) : CtrlOut :=
  match findById st.meetings id with
  | none => ⟨st, none, .notFound⟩
  | some m =>
    if !(actor.isController || m.core.createdBy == some actor.uid
        || m.core.chairperson == actor.uid) then
      ⟨st, none, .forbidden⟩
    else
      let r := saveDoc st.meetings today now false true (meetingPublishDoc m actor.uid now)
      let recipients :=
        (st.users.filter (fun u =>
          u.emailPref && m.core.attendees.any (fun a => a.user == u.uid))).map (·.uid)
      ⟨{ st with meetings := r.1, emails := st.emails ++ recipients }, some r.2, .ok⟩

/-- `meetingSchema.methods.archive()` before its `save()` call: sets the
archived flag and nothing else — in particular it does not read or change
`status`. -/
def meetingArchiveDoc (m : Meeting) : Meeting :=
  m.mapCore fun c => { c with archived := true }

/-- `archiveMeeting` from the meeting controller: look up, reject
non-controller actors, then run the document archive method and save.
There is no check on `status`. -/
def archiveMeetingCtrl (st : DbState) (actor : UserRec) (id : Nat)
    (today : Date3) (now : Nat) : CtrlOut :=
  match findById st.meetings id with
  | none => ⟨st, none, .notFound⟩
  | some m =>
    if !actor.isController then ⟨st, none, .forbidden⟩
    else
      let r := saveDoc st.meetings today now false true (meetingArchiveDoc m)
      ⟨{ st with meetings := r.1 }, some r.2, .ok⟩

/-- JS `a || b` where the result is used as a definite string: an absent
or empty `a` falls through to `b`. -/
def jsStr (a : Option String) (b : String) : String :=
  match a with
  | some s => if s = "" then b else s
  | none => b

/-- `meetingSchema.methods.addAttendee(userId, status, time, notes)`
before its `save()` call. `this.attendees.id(userId)` looks the entry up
by the subdocument `_id` (`aid`), so the in-place branch fires only when
some entry has `aid = userId`; otherwise a new entry is pushed with a
fresh subdocument id, defaulting `time` to the current locale time string
`nowTime`. In the in-place branch an empty or absent `time`/`notes` keeps
the prior value. -/
def meetingAddAttendeeDoc (m : Meeting) (userId : Nat) (status : AttStatus)
    (time : Option String) (notes : String) (freshAid : Nat)
    (nowTime : String) : Meeting :=
  m.mapCore fun c =>
    if c.attendees.any (fun a => a.aid == userId) then
      { c with attendees := c.attendees.map (fun a =>
          if a.aid == userId then
            { a with status := status
                     time := jsOrStr time a.time
                     notes := if notes = "" then a.notes else some notes }
          else a) }
    else
      { c with attendees := c.attendees ++
          [{ aid := freshAid, user := userId, status := status,
             time := some (jsStr time nowTime), notes := some notes }] }

/-- `addAttendee` from the meeting controller: look the meeting up,
authorize (controller, creator or chairperson), check the referenced user
exists, run the document method and save, and — when the status is
`present` — run `user.updatePerformance(1, 0)` on the referenced user. -/
def addAttendeeCtrl (st : DbState) (actor : UserRec) (id : Nat) (userId : Nat)
    (status : AttStatus) (time : Option String) (notes : String)
    (freshAid : Nat) (today : Date3) (now : Nat) (nowTime : String) : CtrlOut :=
  match findById st.meetings id with
  | none => ⟨st, none, .notFound⟩
  | some m =>
    if !(actor.isController || m.core.createdBy == some actor.uid
        || m.core.chairperson == actor.uid) then
      ⟨st, none, .forbidden⟩
    else
      match st.users.find? (fun u => u.uid == userId) with
      | none => ⟨st, none, .notFound⟩
      | some _ =>
        let r := saveDoc st.meetings today now false true
          (meetingAddAttendeeDoc m userId status time notes freshAid nowTime)
        let users1 :=
          if status == .present then
            st.users.map (fun v =>
              if v.uid == userId then { v with perf := updatePerformance v.perf 1 0 } else v)
          else st.users
        ⟨{ st with meetings := r.1, users := users1 }, some r.2, .ok⟩

/-- The create body of `POST /api/meetings` as read by the controller
(`createMeeting`): the attendee array of the request is passed through to
the document as-is. -/
structure CreateBody where
  title : String
  mtype : MType := .regular
  date : String
  startTime : String
  endTime : String
  venue : String
  objective : Option String := none
  agenda : List AgendaItem := []
  attendees : List Attendee := []
deriving Repr

/-- The document `createMeeting` (meeting controller) hands to
`Meeting.create`: the actor as chairperson, minutes taker and creator,
and no `meetingId` — the controller relies on the pre-save hook to assign
one. `newMid` is the `_id` the store would generate. -/
def createMeetingDoc (actorUid : Nat) (b : CreateBody) (newMid : Nat)
    (today : Date3) : Meeting :=
  .mk
    { mid := newMid
      meetingId := none
      title := b.title
      mtype := b.mtype
      date := b.date
      startTime := b.startTime
      endTime := b.endTime
      venue := b.venue
      chairperson := actorUid
      minutesTaker := actorUid
      objective := b.objective
      attendees := b.attendees
      agenda := b.agenda
      createdBy := some actorUid
      createdAt := today } []

/-- `createMeeting` from the meeting controller: `Meeting.create` on the
document above, then a `$inc` on the creating user's
`performance.meetingsAttended`. `Meeting.create` validates required
paths before any user pre-save hook runs, so the id-less document is
rejected there: the error reaches the catch block, nothing is persisted
and the `$inc` is never executed (the success branch below is
unreachable). -/
def createMeetingCtrl (st : DbState) (actorUid : Nat) (b : CreateBody)
    (newMid : Nat) (today : Date3) (now : Nat) : CtrlOut :=
  let doc := createMeetingDoc actorUid b newMid today
  if validateMeeting doc then
    let r := saveDoc st.meetings today now true true doc
    let users1 := st.users.map (fun u =>
      if u.uid == actorUid then
        { u with perf := { u.perf with meetingsAttended := u.perf.meetingsAttended + 1 } }
      else u)
    ⟨{ st with meetings := r.1, users := users1 }, some r.2, .ok⟩
  else ⟨st, none, .errored⟩

/-- One attendee of the router create body, in the caller-supplied raw
shape. -/
structure RawAttendee where
  userId : Nat
  status : Option AttStatus := none
  time : Option String := none
  notes : Option String := none
deriving DecidableEq, Repr

/-- The create body of `POST /api/meetings` as read by the meetings
router. -/
structure RouterCreateBody where
  title : String
  mtype : MType := .regular
  date : String
  startTime : String
  endTime : String
  venue : String
  chairperson : Nat
  minutesTaker : Option Nat := none
  objective : Option String := none
  agenda : List AgendaItem := []
  attendees : List RawAttendee := []
deriving Repr

/-- The document `router.post("/")` of the meetings router builds:
`meetingId` is assigned from `generateMeetingId()` (random three-digit
suffix, draw `r`), the raw attendees are normalized — `status` defaults
to `present`, `time` to the meeting's `startTime` — with fresh
subdocument ids `aidBase + index`, `minutesTaker` defaults to the
caller, and `status` is set to `scheduled`. The route passes no
`createdBy`, although that path is required by the schema. -/
def routerCreateCore (actorUid : Nat) (b : RouterCreateBody)
    (newMid : Nat) (aidBase : Nat) (today : Date3) (r : Nat) : MeetingCore :=
  { mid := newMid
    meetingId := some (generateMeetingId today r)
    title := b.title
    mtype := b.mtype
    date := b.date
    startTime := b.startTime
    endTime := b.endTime
    venue := b.venue
    chairperson := b.chairperson
    minutesTaker := b.minutesTaker.getD actorUid
    objective := b.objective
    attendees := b.attendees.enum.map (fun p =>
      { aid := aidBase + p.1
        user := p.2.userId
        status := p.2.status.getD .present
        time := some (p.2.time.getD b.startTime)
        notes := p.2.notes })
    agenda := b.agenda
    status := .scheduled
    createdBy := none
    createdAt := today }

/-- The router create endpoint itself: `Meeting.create` on the document
above. Validation of required paths rejects it — `createdBy` is never
supplied — so the error path of the handler is taken, nothing is
persisted, and the success branch below is unreachable. -/
def routerCreateMeeting (st : DbState) (actorUid : Nat) (b : RouterCreateBody)
    (newMid : Nat) (aidBase : Nat) (today : Date3) (now : Nat) (r : Nat) : CtrlOut :=
  let doc : Meeting := .mk (routerCreateCore actorUid b newMid aidBase today r) []
  if validateMeeting doc then
    let s := saveDoc st.meetings today now true true doc
    ⟨{ st with meetings := s.1 }, some s.2, .ok⟩
  else ⟨st, none, .errored⟩

/-- The body of `PUT /api/meetings/:id/minutes`: the four fields the
route destructures from the request. -/
structure MinutesBody where
  summary : Option String := none
  decisions : Option (List DecisionRec) := none
  actionItems : Option (List ActionItem) := none
  nextMeeting : Option NextMeeting := none
deriving DecidableEq, Repr

/-- The `minutes` object `router.put("/:id/minutes")` rebuilds wholesale:
`{ summary: summary || old, decisions: decisions || old || [],
actionItems: actionItems || old || [], nextMeeting: nextMeeting || old }`.
JS truthiness: an absent field — and, for `summary`, an empty string —
falls through to the prior value; a provided array, even empty, wins. -/
def mergeMinutes (oldMin : Option Minutes) (b : MinutesBody) : Minutes :=
  { summary := jsOrStr b.summary (Option.bind oldMin (·.summary))
    keyPoints := []
    decisions :=
      match b.decisions with
      | some l => l
      | none => (oldMin.map (·.decisions)).getD []
    actionItems :=
      match b.actionItems with
      | some l => l
      | none => (oldMin.map (·.actionItems)).getD []
    attachments := []
    nextMeeting :=
      match b.nextMeeting with
      | some nm => some nm
      | none => Option.bind oldMin (·.nextMeeting) }

/-- The route handler itself: look the meeting up, replace `minutes` with
the merge above, force `status` to `completed`, and save. -/
def updateMinutesRoute (st : DbState) (id : Nat) (b : MinutesBody)
    (today : Date3) (now : Nat) : CtrlOut :=
  match findById st.meetings id with
  | none => ⟨st, none, .notFound⟩
  | some m =>
    let m1 := m.mapCore fun c =>
      { c with minutes := some (mergeMinutes c.minutes b), status := .completed }
    let s := saveDoc st.meetings today now false true m1
    ⟨{ st with meetings := s.1 }, some s.2, .ok⟩

/-! ## Helper lemmas and concrete fixtures -/

theorem findById_filter_self (store : List Meeting) (id : Nat) :
    findById (store.filter (fun x => !(x.core.mid == id))) id = none := by
  rw [findById, List.find?_eq_none]
  intro x hx
  have := (List.mem_filter.mp hx).2
  simp_all

theorem preSave_core_proj (store : List Meeting) (today : Date3) (now : Nat)
    (isNew isModif : Bool) (m : Meeting) :
    (preSave store today now isNew isModif m).core.status = m.core.status ∧
    (preSave store today now isNew isModif m).core.archived = m.core.archived ∧
    (preSave store today now isNew isModif m).core.published = m.core.published ∧
    (preSave store today now isNew isModif m).core.publishedAt = m.core.publishedAt ∧
    (preSave store today now isNew isModif m).core.publishedBy = m.core.publishedBy ∧
    (preSave store today now isNew isModif m).core.minutes = m.core.minutes := by
  unfold preSave
  by_cases h1 : m.core.meetingId.isNone <;>
    by_cases h2 : (isModif && !isNew) = true <;>
      simp [h1, h2]

theorem preSave_meetingId_of_none (store : List Meeting) (today : Date3) (now : Nat)
    (isNew isModif : Bool) (m : Meeting) (h : m.core.meetingId = none) :
    (preSave store today now isNew isModif m).core.meetingId
      = some (hookMeetingId today (sameDayCount store today)) := by
  unfold preSave
  by_cases h2 : (isModif && !isNew) = true <;> simp [h, h2]

theorem preSave_meetingId_of_some (store : List Meeting) (today : Date3) (now : Nat)
    (isNew isModif : Bool) (m : Meeting) (s : String) (h : m.core.meetingId = some s) :
    (preSave store today now isNew isModif m).core.meetingId = some s := by
  unfold preSave
  by_cases h2 : (isModif && !isNew) = true <;> simp [h, h2]

/-- A sample calendar day (2025-11-04, the day of the seeded meeting). -/
def day0 : Date3 := { year := 2025, month := 11, day := 4 }

/-- Core fields of a sample stored meeting: id 1, created by user 7, in
the schema-default `draft` status with `version` 1. -/
def coreA : MeetingCore :=
  { mid := 1
    meetingId := some "SC-2025-11-04-001"
    title := "A"
    date := "2025-11-04"
    startTime := "11:40"
    endTime := "12:40"
    venue := "Room"
    chairperson := 7
    minutesTaker := 7
    createdBy := some 7
    createdAt := day0 }

/-- A sample stored meeting with empty history. -/
def meetA : Meeting := .mk coreA []

/-- A controller user (uid 7). -/
def ctrlUser : UserRec := { uid := 7, isController := true }

/-! ## Claim C1 — delete writes an archival record before removal -/

/-- C1 counterexample: the meetings router delete endpoint
(`router.delete("/:id")`, a bare `findByIdAndDelete`) removes a stored
meeting successfully while the Archival Store stays empty, so a meeting
can vanish without an archival trace — refuting the claim that no
deletion ever happens without a preceding archival record. -/
theorem routerDelete_without_archival :
    (routerDeleteMeeting { meetings := [meetA] } ctrlUser 1).res = .ok ∧
    (routerDeleteMeeting { meetings := [meetA] } ctrlUser 1).st.meetings = [] ∧
    (routerDeleteMeeting { meetings := [meetA] } ctrlUser 1).st.archives = [] :=
  ⟨rfl, rfl, rfl⟩

/-- C1 amended: on the controller path (`deleteMeeting`), a successful
delete appends exactly one archive record holding the full snapshot of
the meeting and removes the meeting, leaving users and emails untouched;
and when the archival write fails, the whole state — in particular the
meeting record — is left unchanged (fail-closed). The router delete
endpoint, by contrast, removes the record without any archival write. -/
theorem deleteMeetingCtrl_archival_fail_closed
    (st : DbState) (actor : UserRec) (id : Nat) (m : Meeting)
    (hm : findById st.meetings id = some m) (hc : actor.isController = true) :
    (deleteMeetingCtrl st actor id true).res = .ok ∧
    (deleteMeetingCtrl st actor id true).st.archives
      = st.archives ++ [mkDelArchive m actor.uid] ∧
    (mkDelArchive m actor.uid).originalData = m ∧
    findById (deleteMeetingCtrl st actor id true).st.meetings id = none ∧
    (deleteMeetingCtrl st actor id true).st.users = st.users ∧
    (deleteMeetingCtrl st actor id true).st.emails = st.emails ∧
    (deleteMeetingCtrl st actor id false).st = st ∧
    (deleteMeetingCtrl st actor id false).res = .errored := by
  simp only [deleteMeetingCtrl, hm, hc]
  refine ⟨rfl, rfl, rfl, findById_filter_self st.meetings id, rfl, rfl, rfl, rfl⟩

/-- C1 witness: the fail-closed delete theorem applied to the concrete
one-meeting state. -/
theorem deleteMeetingCtrl_archival_fail_closed_witness :
    (deleteMeetingCtrl { meetings := [meetA] } ctrlUser 1 true).res = .ok ∧
    (deleteMeetingCtrl { meetings := [meetA] } ctrlUser 1 true).st.archives
      = ({ meetings := [meetA] } : DbState).archives ++ [mkDelArchive meetA ctrlUser.uid] ∧
    (mkDelArchive meetA ctrlUser.uid).originalData = meetA ∧
    findById (deleteMeetingCtrl { meetings := [meetA] } ctrlUser 1 true).st.meetings 1 = none ∧
    (deleteMeetingCtrl { meetings := [meetA] } ctrlUser 1 true).st.users
      = ({ meetings := [meetA] } : DbState).users ∧
    (deleteMeetingCtrl { meetings := [meetA] } ctrlUser 1 true).st.emails
      = ({ meetings := [meetA] } : DbState).emails ∧
    (deleteMeetingCtrl { meetings := [meetA] } ctrlUser 1 false).st
      = { meetings := [meetA] } ∧
    (deleteMeetingCtrl { meetings := [meetA] } ctrlUser 1 false).res = .errored :=
  deleteMeetingCtrl_archival_fail_closed { meetings := [meetA] } ctrlUser 1 meetA rfl rfl

/-! ## Claim C2 — version increments by exactly 1 on every update -/

/-- C2: the update endpoint (`updateMeeting`, a `findByIdAndUpdate`) does
not run the save middleware, so a mutating update through it leaves
`version` unchanged and pushes nothing onto `previousVersions`: patching
the stored version-1 meeting with a new title yields a stored document
that has the new title but still `version = 1` and an empty history,
where the claim demands `version = 2`. -/
theorem updateMeetingCtrl_does_not_bump_version :
    ((updateMeetingCtrl { meetings := [meetA] } { uid := 7 } 1
        { title := some "B" }).meeting.map (fun x => x.core.title)) = some "B" ∧
    ((updateMeetingCtrl { meetings := [meetA] } { uid := 7 } 1
        { title := some "B" }).meeting.map (fun x => x.core.version)) = some 1 ∧
    ((updateMeetingCtrl { meetings := [meetA] } { uid := 7 } 1
        { title := some "B" }).meeting.map (fun x => x.prevVersions.length)) = some 0 ∧
    meetA.core.version = 1 :=
  ⟨rfl, rfl, rfl, rfl⟩

/-! ## Claim C3 — previousVersions entries are pre-patch snapshots -/

/-- The version-1 meeting with its title patched from "A" to "B", as a
save-path update would leave the in-memory document just before the
pre-save middleware runs. -/
def meetABPatched : Meeting := meetA.mapCore (fun c => { c with title := "B" })

/-- The document after the pre-save middleware of that save. -/
def meetAB : Meeting := preSave [meetA] day0 5 false true meetABPatched

/-- C3: the history entry the pre-save middleware pushes is
`this.toObject()` — the already-patched document. After updating the
title from "A" to "B" on the stored version-1 meeting, the single
`previousVersions` entry carries title "B" and the already-incremented
version 2 (while being tagged as version 1), not the pre-patch record
with title "A" that the claim requires. -/
theorem preSave_snapshot_is_post_patch :
    (meetAB.prevVersions.map (fun e => e.data.core.title)) = ["B"] ∧
    (meetAB.prevVersions.map (fun e => e.version)) = [1] ∧
    (meetAB.prevVersions.map (fun e => e.data.core.version)) = [2] ∧
    meetAB.core.version = 2 ∧
    meetA.core.title = "A" :=
  ⟨rfl, rfl, rfl, rfl, rfl⟩

/-! ## Claim C4 — archive requires status completed -/

/-- C4 counterexample: archiving the stored meeting whose status is
`draft` (not `completed`) succeeds — the controller and the document
method check nothing — and sets `archived = true`, refuting the claim
that archive fails with InvalidState for non-completed meetings. -/
theorem archiveMeetingCtrl_archives_draft :
    (archiveMeetingCtrl { meetings := [meetA] } ctrlUser 1 day0 5).res = .ok ∧
    ((archiveMeetingCtrl { meetings := [meetA] } ctrlUser 1 day0 5).meeting.map
      (fun x => x.core.archived)) = some true ∧
    ((archiveMeetingCtrl { meetings := [meetA] } ctrlUser 1 day0 5).meeting.map
      (fun x => x.core.status)) = some .draft ∧
    MStatus.draft ≠ MStatus.completed :=
  ⟨rfl, rfl, rfl, by decide⟩

/-- C4 amended: `archiveMeeting` performs no status check at all: for a
controller actor and any stored meeting, whatever its status, the call
succeeds, sets `archived = true` and leaves `status` unchanged — so
`archived = true` is reachable from every status. -/
theorem archiveMeetingCtrl_ignores_status
    (st : DbState) (actor : UserRec) (id : Nat) (today : Date3) (now : Nat)
    (m : Meeting) (hm : findById st.meetings id = some m)
    (hc : actor.isController = true) :
    (archiveMeetingCtrl st actor id today now).res = .ok ∧
    ∃ m2, (archiveMeetingCtrl st actor id today now).meeting = some m2 ∧
      m2.core.archived = true ∧ m2.core.status = m.core.status := by
  simp only [archiveMeetingCtrl, hm, hc, saveDoc]
  refine ⟨rfl, _, rfl, ?_, ?_⟩
  · exact ((preSave_core_proj st.meetings today now false true
      (meetingArchiveDoc m)).2.1).trans rfl
  · exact ((preSave_core_proj st.meetings today now false true
      (meetingArchiveDoc m)).1).trans rfl

/-- C4 witness: the no-status-guard archive theorem applied to the
concrete one-meeting state (a draft meeting). -/
theorem archiveMeetingCtrl_ignores_status_witness :
    (archiveMeetingCtrl { meetings := [meetA] } ctrlUser 1 day0 5).res = .ok ∧
    ∃ m2, (archiveMeetingCtrl { meetings := [meetA] } ctrlUser 1 day0 5).meeting = some m2 ∧
      m2.core.archived = true ∧ m2.core.status = meetA.core.status :=
  archiveMeetingCtrl_ignores_status { meetings := [meetA] } ctrlUser 1 day0 5 meetA rfl rfl

/-! ## Claim C5 — publish requires a summary and leaves status unchanged -/

/-- C5 counterexample: publishing the stored meeting that has no minutes
at all (so `minutes.summary` is unset) succeeds — the controller checks
nothing — and the document publish method forces `status` from `draft`
to `completed`, refuting both the InvalidState requirement and the
status-unchanged requirement of the claim. -/
theorem publishMeetingCtrl_without_summary :
    (publishMeetingCtrl { meetings := [meetA] } ctrlUser 1 day0 5).res = .ok ∧
    ((publishMeetingCtrl { meetings := [meetA] } ctrlUser 1 day0 5).meeting.map
      (fun x => x.core.published)) = some true ∧
    ((publishMeetingCtrl { meetings := [meetA] } ctrlUser 1 day0 5).meeting.map
      (fun x => x.core.minutes)) = some none ∧
    ((publishMeetingCtrl { meetings := [meetA] } ctrlUser 1 day0 5).meeting.map
      (fun x => x.core.status)) = some .completed ∧
    meetA.core.status ≠ MStatus.completed :=
  ⟨rfl, rfl, rfl, rfl, by decide⟩

/-- C5 amended: `publishMeeting` performs no check on `minutes.summary`;
for a controller actor and any stored meeting — with or without minutes —
the call succeeds and the saved document has `published = true`,
`publishedAt = now`, `publishedBy = actor`, and `status` forced to
`completed` (so the status is not left unchanged). -/
theorem publishMeetingCtrl_sets_fields
    (st : DbState) (actor : UserRec) (id : Nat) (today : Date3) (now : Nat)
    (m : Meeting) (hm : findById st.meetings id = some m)
    (hc : actor.isController = true) :
    (publishMeetingCtrl st actor id today now).res = .ok ∧
    ∃ m2, (publishMeetingCtrl st actor id today now).meeting = some m2 ∧
      m2.core.published = true ∧
      m2.core.publishedAt = some now ∧
      m2.core.publishedBy = some actor.uid ∧
      m2.core.status = .completed ∧
      m2.core.minutes = m.core.minutes := by
  simp only [publishMeetingCtrl, hm, hc, saveDoc]
  have h := preSave_core_proj st.meetings today now false true
    (meetingPublishDoc m actor.uid now)
  refine ⟨rfl, _, rfl, ?_, ?_, ?_, ?_, ?_⟩
  · exact h.2.2.1.trans rfl
  · exact h.2.2.2.1.trans rfl
  · exact h.2.2.2.2.1.trans rfl
  · exact h.1.trans rfl
  · exact h.2.2.2.2.2.trans rfl

/-- C5 witness: the publish-fields theorem applied to the concrete
one-meeting state (a meeting without minutes). -/
theorem publishMeetingCtrl_sets_fields_witness :
    (publishMeetingCtrl { meetings := [meetA] } ctrlUser 1 day0 5).res = .ok ∧
    ∃ m2, (publishMeetingCtrl { meetings := [meetA] } ctrlUser 1 day0 5).meeting = some m2 ∧
      m2.core.published = true ∧
      m2.core.publishedAt = some 5 ∧
      m2.core.publishedBy = some ctrlUser.uid ∧
      m2.core.status = .completed ∧
      m2.core.minutes = meetA.core.minutes :=
  publishMeetingCtrl_sets_fields { meetings := [meetA] } ctrlUser 1 day0 5 meetA rfl rfl

/-! ## Claim C6 — addAttendee is an upsert keyed by userRef -/

/-- The state after adding user 5 as `present` to the stored meeting
(fresh subdocument id 100). -/
def outC6a : CtrlOut :=
  addAttendeeCtrl { meetings := [meetA], users := [{ uid := 5 }] } ctrlUser 1 5
    .present none "" 100 day0 5 "10:00"

/-- The state after adding user 5 again, now as `late` (fresh
subdocument id 101). -/
def outC6b : CtrlOut :=
  addAttendeeCtrl outC6a.st ctrlUser 1 5 .late none "" 101 day0 6 "10:05"

/-- C6: `addAttendee` looks the existing entry up with
`this.attendees.id(userId)`, which matches the subdocument `_id`, never
the `user` reference — so adding the same user twice appends a second
entry instead of updating the first in place: after the two calls the
attendee list holds two entries for user 5 with the two statuses, where
the claim requires a single upserted entry. -/
theorem addAttendee_appends_duplicate :
    (outC6b.meeting.map (fun x => x.core.attendees.map (·.user))) = some [5, 5] ∧
    (outC6b.meeting.map (fun x => x.core.attendees.map (·.status)))
      = some [.present, .late] ∧
    (outC6b.meeting.map (fun x => x.core.attendees.length)) = some 2 :=
  ⟨rfl, rfl, rfl⟩

/-! ## Claim C7 — meetingId sequence from the same-day creation count -/

/-- A sample router create body (no `createdBy` exists in that body at
all — the route never passes one). -/
def bodyC7 : RouterCreateBody :=
  { title := "T", date := "2025-11-04", startTime := "11:40", endTime := "12:40",
    venue := "Room", chairperson := 7 }

/-- C7: no meeting ever receives the claimed count-based id, because no
create succeeds. The controller create builds its document without a
`meetingId`, and required-path validation — which runs before any user
pre-save hook — rejects it before the id-assigning hook could run, so
that hook is dead code for creates. The router create does supply an id,
but its three-digit suffix is the random draw `r` rather than the
same-day sequence, and the document omits the required `createdBy`, so
it is rejected as well: the endpoint errors and leaves the state
untouched on every input. The concrete conjuncts evaluate the failing
input: with draw 737 the router document carries `SC-2025-11-04-737`,
not the `SC-2025-11-04-001` the count rule would give on an empty
store. -/
theorem meetingCreate_never_assigns_sequence_id
    (actorUid : Nat) (b : CreateBody) (newMid : Nat) (today : Date3)
    (st2 : DbState) (actorUid2 : Nat) (b2 : RouterCreateBody)
    (newMid2 aidBase : Nat) (today2 : Date3) (now2 r : Nat) :
    ((createMeetingDoc actorUid b newMid today).core.meetingId = none ∧
     validateMeeting (createMeetingDoc actorUid b newMid today) = false) ∧
    ((routerCreateCore actorUid2 b2 newMid2 aidBase today2 r).meetingId
        = some (generateMeetingId today2 r) ∧
     (routerCreateCore actorUid2 b2 newMid2 aidBase today2 r).createdBy = none ∧
     (routerCreateMeeting st2 actorUid2 b2 newMid2 aidBase today2 now2 r).res
        = .errored ∧
     (routerCreateMeeting st2 actorUid2 b2 newMid2 aidBase today2 now2 r).st = st2) ∧
    ((routerCreateCore 7 bodyC7 1 1000 day0 737).meetingId
        = some "SC-2025-11-04-737" ∧
     sameDayCount [] day0 = 0 ∧
     hookMeetingId day0 0 = "SC-2025-11-04-001" ∧
     "SC-2025-11-04-737" ≠ "SC-2025-11-04-001") :=
  ⟨⟨rfl, rfl⟩, ⟨rfl, rfl, rfl, rfl⟩, ⟨rfl, rfl, rfl, by decide⟩⟩

/-! ## Claim C8 — minutes merge semantics and forced completion -/

/-- C8: the minutes update route replaces each minutes field only when it
is provided: an omitted field keeps the prior value, with decisions and
actionItems defaulting to the empty list when minutes were never set, and
a provided field (a non-empty summary, any list, any nextMeeting object)
replaces the prior value; and the saved meeting always ends with
`status = completed`, whatever the prior status was. -/
theorem updateMinutes_merges_and_completes
    (st : DbState) (id : Nat) (b : MinutesBody) (today : Date3) (now : Nat)
    (m : Meeting) (hm : findById st.meetings id = some m) :
    (∃ m2, (updateMinutesRoute st id b today now).meeting = some m2 ∧
      m2.core.minutes = some (mergeMinutes m.core.minutes b) ∧
      m2.core.status = .completed) ∧
    (b.summary = none →
      (mergeMinutes m.core.minutes b).summary
        = Option.bind m.core.minutes (·.summary)) ∧
    (∀ s, b.summary = some s → s ≠ "" →
      (mergeMinutes m.core.minutes b).summary = some s) ∧
    (b.decisions = none →
      (mergeMinutes m.core.minutes b).decisions
        = ((m.core.minutes).map (·.decisions)).getD []) ∧
    (∀ l, b.decisions = some l → (mergeMinutes m.core.minutes b).decisions = l) ∧
    (b.actionItems = none →
      (mergeMinutes m.core.minutes b).actionItems
        = ((m.core.minutes).map (·.actionItems)).getD []) ∧
    (∀ l, b.actionItems = some l → (mergeMinutes m.core.minutes b).actionItems = l) ∧
    (b.nextMeeting = none →
      (mergeMinutes m.core.minutes b).nextMeeting
        = Option.bind m.core.minutes (·.nextMeeting)) ∧
    (∀ nm, b.nextMeeting = some nm →
      (mergeMinutes m.core.minutes b).nextMeeting = some nm) := by
  have hp := preSave_core_proj st.meetings today now false true
    (m.mapCore fun c =>
      { c with minutes := some (mergeMinutes c.minutes b), status := .completed })
  constructor
  · simp only [updateMinutesRoute, hm, saveDoc]
    exact ⟨_, rfl, hp.2.2.2.2.2.trans rfl, hp.1.trans rfl⟩
  refine ⟨fun h => by simp [mergeMinutes, jsOrStr, h],
    fun s hs hne => by simp [mergeMinutes, jsOrStr, hs, hne],
    fun h => by simp [mergeMinutes, h],
    fun l hl => by simp [mergeMinutes, hl],
    fun h => by simp [mergeMinutes, h],
    fun l hl => by simp [mergeMinutes, hl],
    fun h => by simp [mergeMinutes, h],
    fun nm hnm => by simp [mergeMinutes, hnm]⟩

/-- C8 witness: the merge theorem applied to the stored meeting (which
has no minutes) and a body providing only a summary. -/
theorem updateMinutes_merges_and_completes_witness :
    (∃ m2, (updateMinutesRoute { meetings := [meetA] } 1
        { summary := some "Handover complete" } day0 5).meeting = some m2 ∧
      m2.core.minutes
        = some (mergeMinutes meetA.core.minutes { summary := some "Handover complete" }) ∧
      m2.core.status = .completed) ∧
    (mergeMinutes meetA.core.minutes { summary := some "Handover complete" }).summary
      = some "Handover complete" :=
  ⟨(updateMinutes_merges_and_completes { meetings := [meetA] } 1
      { summary := some "Handover complete" } day0 5 meetA rfl).1,
   (updateMinutes_merges_and_completes { meetings := [meetA] } 1
      { summary := some "Handover complete" } day0 5 meetA rfl).2.2.1
      "Handover complete" rfl (by decide)⟩

/-! ## Claim C9 — create has no side effect beyond persistence -/

/-- A plain member user (uid 7, default counters all 0). -/
def userM : UserRec := { uid := 7 }

/-- A minimal create body for the controller create endpoint. -/
def bodyC9 : CreateBody :=
  { title := "T", date := "2025-11-04", startTime := "11:40", endTime := "12:40",
    venue := "Room" }

/-- C9: a create call through the controller always fails required-path
validation — `meetingId` is only assigned by the pre-save hook, which
runs after validation — so `Meeting.create` throws, the handler takes
its error path, and nothing at all is modified: no meeting is persisted,
no notification is sent, and no user's performance counters change. The
`$inc` on the creator's counter that follows a successful create is
unreachable; the claim describes a create that persists the record,
which this program never performs. -/
theorem createMeetingCtrl_modifies_nothing
    (st : DbState) (actorUid : Nat) (b : CreateBody) (newMid : Nat)
    (today : Date3) (now : Nat) :
    (createMeetingCtrl st actorUid b newMid today now).res = .errored ∧
    (createMeetingCtrl st actorUid b newMid today now).st = st ∧
    (createMeetingCtrl st actorUid b newMid today now).meeting = none ∧
    ((createMeetingCtrl { users := [userM] } 7 bodyC9 1 day0 5).st.users.map
      (fun u => u.perf.meetingsAttended)) = [0] ∧
    (createMeetingCtrl { users := [userM] } 7 bodyC9 1 day0 5).st.meetings = [] :=
  ⟨rfl, rfl, rfl, rfl, rfl⟩

/-! ## Claim C10 — updatePerformance keeps rating in [0, 100] -/

/-- C10 counterexample: on a user whose counters are all 0 (hence
non-negative), the call `updatePerformance(-1, 0)` drives
`meetingsAttended` to -1, the meetings score to -2, and the recomputed
rating to -2, outside [0, 100] — so the bound does not hold for every
call on a user with non-negative counters. -/
theorem updatePerformance_negative_rating :
    (updatePerformance {} (-1) 0).rating = -2 ∧
    ¬ (0 ≤ (updatePerformance {} (-1) 0).rating) := by
  have h : (updatePerformance {} (-1) 0).rating = jsRound (-2) := by
    norm_num [updatePerformance]
  have h2 : jsRound (-2) = -2 := by
    rw [jsRound, Int.floor_eq_iff]
    norm_num
  rw [h, h2]
  norm_num

/-- C10 amended: after `updatePerformance(meetings, tasks)` on a user
whose counters (`meetingsAttended`, `tasksCompleted`, `streak`) are
non-negative, with non-negative increments (as at every call site in the
repository, which pass (1,0) or (0,1)), the rating lies between 0 and
100 and equals the rounded sum of the meetings score capped at 40, the
tasks score capped at 40, and the streak score capped at 20. -/
theorem updatePerformance_rating_bounds (p : Perf) (meetings tasks : ℚ)
    (h1 : 0 ≤ p.meetingsAttended) (h2 : 0 ≤ p.tasksCompleted)
    (h3 : 0 ≤ p.streak) (h4 : 0 ≤ meetings) (h5 : 0 ≤ tasks) :
    0 ≤ (updatePerformance p meetings tasks).rating ∧
    (updatePerformance p meetings tasks).rating ≤ 100 ∧
    (updatePerformance p meetings tasks).rating
      = jsRound (min ((p.meetingsAttended + meetings) * 2) 40
          + min ((p.tasksCompleted + tasks) * (3 / 2)) 40
          + min (p.streak * (1 / 2)) 20) := by
  have key : ∀ S : ℚ, 0 ≤ S → S ≤ 100 → 0 ≤ jsRound S ∧ jsRound S ≤ 100 := by
    intro S hS0 hS100
    constructor
    · exact Int.le_floor.mpr (by push_cast; linarith)
    · have hle : S + 1 / 2 ≤ (100 : ℚ) + 1 / 2 := by linarith
      have h := Int.floor_le_floor hle
      have h100 : ⌊(100 : ℚ) + 1 / 2⌋ = (100 : ℤ) := by
        rw [Int.floor_eq_iff]
        norm_num
      rw [jsRound]
      rw [h100] at h
      exact h
  have a1 : (0 : ℚ) ≤ min ((p.meetingsAttended + meetings) * 2) 40 :=
    le_min (by positivity) (by norm_num)
  have a2 : (0 : ℚ) ≤ min ((p.tasksCompleted + tasks) * (3 / 2)) 40 :=
    le_min (by positivity) (by norm_num)
  have a3 : (0 : ℚ) ≤ min (p.streak * (1 / 2)) 20 :=
    le_min (by positivity) (by norm_num)
  have b1 : min ((p.meetingsAttended + meetings) * 2) 40 ≤ 40 := min_le_right _ _
  have b2 : min ((p.tasksCompleted + tasks) * (3 / 2)) 40 ≤ 40 := min_le_right _ _
  have b3 : min (p.streak * (1 / 2)) 20 ≤ 20 := min_le_right _ _
  have hk := key (min ((p.meetingsAttended + meetings) * 2) 40
      + min ((p.tasksCompleted + tasks) * (3 / 2)) 40
      + min (p.streak * (1 / 2)) 20) (by linarith) (by linarith)
  exact ⟨hk.1, hk.2, rfl⟩

/-- C10 witness: the rating-bounds theorem applied to a user with
counters (3, 4, streak 2) and the in-repo increment (1, 0). -/
theorem updatePerformance_rating_bounds_witness :
    0 ≤ (updatePerformance
        { meetingsAttended := 3, tasksCompleted := 4, streak := 2 } 1 0).rating ∧
    (updatePerformance
        { meetingsAttended := 3, tasksCompleted := 4, streak := 2 } 1 0).rating ≤ 100 ∧
    (updatePerformance
        { meetingsAttended := 3, tasksCompleted := 4, streak := 2 } 1 0).rating
      = jsRound (min (((3 : ℚ) + 1) * 2) 40 + min (((4 : ℚ) + 0) * (3 / 2)) 40
          + min ((2 : ℚ) * (1 / 2)) 20) :=
  updatePerformance_rating_bounds
    { meetingsAttended := 3, tasksCompleted := 4, streak := 2 } 1 0
    (by norm_num) (by norm_num) (by norm_num) (by norm_num) (by norm_num)
